import Mathlib

/-!
Shallow embedding of `cmb_beams/detector.py` (classes `Beam` and `Detector`).

Conventions of the embedding:
* Python floats are modelled as exact rationals (`ℚ`); Python ints as `ℤ`.
* A Python attribute that may be absent on an object is an `Option` field;
  `none` models the absent attribute (reading it raises `AttributeError`).
* Raised exceptions are modelled with `Except PyErr` (or, where the source
  mutates the heap before raising, with a `state × Option PyErr` pair).
* The harmonic-coefficient arrays (`blm`) are opaque values of a type
  parameter `α`; the external numerics routines from the `tools` module and
  `np.load` are opaque functions collected in a `Tools α` record.  Equality
  of `α`-values models reference equality of the underlying arrays: the only
  way the embedded code produces equal values is by passing the same
  reference around.
-/

/-- Python exception classes raised by the embedded code, with their message. -/
inductive PyErr where
  | nameError (msg : String)
  | valueError (msg : String)
  | typeError (msg : String)
  | attributeError (msg : String)
  | runtimeError (msg : String)
  | notImplementedError (msg : String)
deriving DecidableEq, Repr

/-- Attributes carried by every `Beam` instance (ghost or not), i.e. every
attribute of `detector.Beam` except the ghost list `__ghosts` (which only
non-ghost beams possess; it lives in the `Beam` wrapper below).
`blm = none` models an uninitialised `__blm` cache; `ghost_count` is `some`
exactly on initialised non-ghost beams and `ghost_idx` is `some` exactly on
initialised ghost beams. -/
structure BeamF (α : Type) where
  az : ℚ
  el : ℚ
  polang : ℚ
  name : Option String
  pol : String
  btype : String
  dead : Bool
  amplitude : ℚ
  po_file : Option String
  eg_file : Option String
  cross_pol_file : Option String
  lmax : ℤ
  mmax : ℤ
  fwhm : ℚ
  ghost : Bool
  ghost_count : Option ℤ
  ghost_idx : Option ℤ
  blm : Option α
deriving DecidableEq, Repr

/-- A `Beam` object: the common attributes plus the ghost list `__ghosts`.
`ghosts = none` models the attribute being absent (the case of a ghost beam);
elements of the list are themselves (ghost) beams, which never carry a ghost
list of their own because `Beam.__init__` only creates `__ghosts` when
`ghost=False` and `create_ghost` always constructs with `ghost=True`. -/
structure Beam (α : Type) extends BeamF α where
  ghosts : Option (List (BeamF α))
deriving DecidableEq, Repr

/-- Keyword arguments of `Beam.__init__` with their Python default values. -/
structure BeamArgs where
  az : ℚ := 0
  el : ℚ := 0
  polang : ℚ := 0
  name : Option String := none
  pol : String := "A"
  btype : String := "Gaussian"
  fwhm : Option ℚ := none
  lmax : Option ℤ := some 700
  mmax : Option ℤ := none
  dead : Bool := false
  ghost : Bool := false
  amplitude : ℚ := 1
  po_file : Option String := none
  eg_file : Option String := none
  cross_pol_file : Option String := none
deriving DecidableEq, Repr

/-- Python truthiness of an optional float: `None` and `0.0` are falsy. -/
def pyFalsyQ : Option ℚ → Bool
  | none => true
  | some v => v == 0

/-- Python truthiness of an optional string: `None` and the empty string are
falsy. -/
def pyTruthyStr : Option String → Bool
  | none => false
  | some s => s != ""

/-- Body of the `lmax` setter (detector.py lines 140-149).  The guard in the
source reads `if val is None and fwhm:` where `fwhm` is a free name that is
defined neither in the function, the module, nor any enclosing scope, so the
`val is None` branch raises `NameError` before the derived value
`int(2*np.pi/np.radians(self.fwhm/60.)*1.4)` can be computed; that branch is
dead code.  Otherwise the stored value is `max(val, 0)`. -/
def lmaxSetVal (val : Option ℤ) : Except PyErr ℤ :=
  match val with
  | none => .error (.nameError "name fwhm is not defined")
  | some v => .ok (max v 0)

/-- Body of the `mmax` setter (detector.py lines 172-178):
`min(i for i in [mmax, self.lmax] if i is not None)`.  The stored `lmax` is
always an int (the `lmax` setter either raises or stores one), so the
generator is never empty. -/
def mmaxSetVal (val : Option ℤ) (lmax : ℤ) : ℤ :=
  match val with
  | none => lmax
  | some m => min m lmax

/-- Body of the `fwhm` setter (detector.py lines 155-166).  When `val` is
falsy (`None` or `0.0`) and the stored `lmax` is truthy (nonzero), the source
computes `val = (1.4 * 2. * np.pi) / self.lmax` and stores
`np.degrees(val) * 60`.  Since `np.degrees(x) = x * 180 / pi`, the factors of
pi cancel exactly and the stored value is `1.4 * 2 * 180 * 60 / lmax`; the
embedding uses that exact rational form (see `fwhm_from_lmax_pi_cancel`
below for the justification over `ℝ`).  Otherwise the source stores
`np.abs(val)`, which raises `TypeError` when `val` is `None` (only possible
when `lmax == 0`). -/
def fwhmSetVal (val : Option ℚ) (lmax : ℤ) : Except PyErr ℚ :=
  if pyFalsyQ val && (lmax != 0) then
    .ok ((1.4 : ℚ) * 2 * 180 * 60 / (lmax : ℚ))
  else
    match val with
    | some v => .ok |v|
    | none => .error (.typeError "bad operand type for abs: NoneType")

/-- Constructor `Beam.__init__` (detector.py lines 13-87).  Plain attribute assignments
happen in source order; `self.dead = dead` runs through the `dead` setter, but
at that point `__ghosts` does not exist yet, so the propagation loop hits
`AttributeError` and is skipped.  Then `self.lmax`, `self.mmax`, `self.fwhm`
run through their setters in that order, followed by `__ghost` and the
role-dependent attributes: non-ghosts get `__ghosts = []` and
`ghost_count = 0` (through the setter, which succeeds since `__ghost` is
`False`), ghosts get `ghost_idx = 0` (through the setter, which succeeds since
`__ghost` is `True`). -/
def Beam.init {α : Type} (a : BeamArgs) : Except PyErr (Beam α) :=
  match lmaxSetVal a.lmax with
  | .error e => .error e
  | .ok lmax =>
    match fwhmSetVal a.fwhm lmax with
    | .error e => .error e
    | .ok fwhm =>
      .ok { az := a.az, el := a.el, polang := a.polang, name := a.name,
            pol := a.pol, btype := a.btype, dead := a.dead,
            amplitude := a.amplitude, po_file := a.po_file,
            eg_file := a.eg_file, cross_pol_file := a.cross_pol_file,
            lmax := lmax, mmax := mmaxSetVal a.mmax lmax, fwhm := fwhm,
            ghost := a.ghost, blm := none,
            ghost_count := if a.ghost then none else some 0,
            ghost_idx := if a.ghost then some 0 else none,
            ghosts := if a.ghost then none else some [] }

/-- Post-construction assignment `beam.lmax = val` through the `lmax` setter
(detector.py lines 140-149). -/
def Beam.set_lmax {α : Type} (b : Beam α) (val : Option ℤ) :
    Except PyErr (Beam α) :=
  match lmaxSetVal val with
  | .error e => .error e
  | .ok l => .ok { b with lmax := l }

/-- Post-construction assignment `beam.mmax = val` through the `mmax` setter
(detector.py lines 172-178); never raises because the stored `lmax` always
exists. -/
def Beam.set_mmax {α : Type} (b : Beam α) (val : Option ℤ) : Beam α :=
  { b with mmax := mmaxSetVal val b.lmax }

/-- Post-construction assignment `beam.fwhm = val` through the `fwhm` setter
(detector.py lines 155-166). -/
def Beam.set_fwhm {α : Type} (b : Beam α) (val : Option ℚ) :
    Except PyErr (Beam α) :=
  match fwhmSetVal val b.lmax with
  | .error e => .error e
  | .ok f => .ok { b with fwhm := f }

/-- The `ghost_count` setter (detector.py lines 101-106).  On a non-ghost the
count is stored; on a ghost the source executes `raise ValueErrror(...)`, a
misspelling of `ValueError`, so the name lookup itself fails and the
exception actually raised is `NameError`, not the intended `ValueError`. -/
def Beam.set_ghost_count {α : Type} (b : Beam α) (v : ℤ) :
    Except PyErr (Beam α) :=
  if !b.ghost then .ok { b with ghost_count := some v }
  else .error (.nameError "name ValueErrror is not defined")

/-- The `ghost_idx` setter (detector.py lines 112-117): stores on a ghost,
raises `ValueError` on a non-ghost. -/
def Beam.set_ghost_idx {α : Type} (b : Beam α) (v : ℤ) :
    Except PyErr (Beam α) :=
  if b.ghost then .ok { b with ghost_idx := some v }
  else .error (.valueError "main beam cannot have ghost_idx")

/-- The `dead` setter (detector.py lines 123-134): set the own flag, then try
to write `ghost.__dead = val` for every ghost in `self.ghosts` (a direct
field write that bypasses the ghost's own setter).  When the instance is a
ghost, reading `self.ghosts` raises `AttributeError`, which is caught and
ignored. -/
def Beam.set_dead {α : Type} (b : Beam α) (v : Bool) : Beam α :=
  let b' : Beam α := { b with dead := v }
  match b'.ghosts with
  | none => b'
  | some gs => { b' with ghosts := some (gs.map fun g => { g with dead := v }) }

/-- Replace the element at index `i` of a list by `f` of it (no-op when out of
range); models an in-place mutation of one object in a Python list. -/
def listModify {β : Type} : List β → ℕ → (β → β) → List β
  | [], _, _ => []
  | g :: gs, 0, f => f g :: gs
  | g :: gs, i + 1, f => g :: listModify gs i f

/-- Heap-level view of `parent.ghosts[i].dead = v`: the `dead` setter runs on
the ghost object stored in the parent's ghost list.  The ghost sets its own
flag, its propagation loop is skipped (`AttributeError` on `self.ghosts`),
and — because Python mutates the object in place — the parent's list now
holds the updated ghost.  The parent's own `dead` flag and all other ghosts
are untouched. -/
def Beam.set_ghost_dead {α : Type} (b : Beam α) (i : ℕ) (v : Bool) : Beam α :=
  match b.ghosts with
  | none => b
  | some gs => { b with ghosts := some (listModify gs i fun g => { g with dead := v }) }

/-- Opaque interface to the external numerics routines used by `Beam`
(`tools.gauss_blm`, in-place scaling by `amplitude`, `tools.get_copol_blm`
with its `c2_fwhm` or `deconv_q`/`normalize` options, and `np.load`).  The
spec treats these as pure functions supplied by a numerics library. -/
structure Tools (α : Type) where
  gauss_blm : ℚ → ℤ → α
  scale : α → ℚ → α
  get_copol_blm_c2 : α → ℚ → α
  get_copol_blm_opts : α → Bool → Bool → α
  np_load : Option String → α

/-- The array computed by `gen_gaussian_blm` (detector.py lines 231-249):
`tools.gauss_blm(fwhm, lmax, pol=False)`, scaled by `amplitude` when it is
not 1, then `tools.get_copol_blm(blm, c2_fwhm=fwhm)`. -/
def gaussianBlmVal {α : Type} (t : Tools α) (b : Beam α) : α :=
  let blm := t.gauss_blm b.fwhm b.lmax
  let blm := if b.amplitude != 1 then t.scale blm b.amplitude else blm
  t.get_copol_blm_c2 blm b.fwhm

/-- Method `Beam.gen_gaussian_blm` (detector.py lines 231-249): computes the Gaussian
coefficients, sets `btype = 'Gaussian'` and caches the array in `blm`. -/
def Beam.gen_gaussian_blm {α : Type} (t : Tools α) (b : Beam α) : Beam α :=
  { b with btype := "Gaussian", blm := some (gaussianBlmVal t b) }

/-- The array computed by `load_blm` in its co-polarized branch (detector.py
lines 275-294): `np.load(filename)`, scaled by `amplitude` when it is not 1,
then `tools.get_copol_blm(blm, **kwargs)` with the `deconv_q`/`normalize`
options passed through. -/
def loadBlmVal {α : Type} (t : Tools α) (b : Beam α) (filename : Option String)
    (deconv_q normalize : Bool) : α :=
  let blm := t.np_load filename
  let blm := if b.amplitude != 1 then t.scale blm b.amplitude else blm
  t.get_copol_blm_opts blm deconv_q normalize

/-- Method `Beam.load_blm` (detector.py lines 251-297): with `cross_pol_file=None`
the loaded, scaled, co-polarized array is cached in `blm`; otherwise the
source raises `NotImplementedError('be patient')`. -/
def Beam.load_blm {α : Type} (t : Tools α) (b : Beam α) (filename : Option String)
    (cross_pol_file : Option String) (deconv_q normalize : Bool) :
    Except PyErr (Beam α) :=
  match cross_pol_file with
  | none => .ok { b with blm := some (loadBlmVal t b filename deconv_q normalize) }
  | some _ => .error (.notImplementedError "be patient")

/-- The `blm` getter (detector.py lines 180-213).  `try: return self.__blm`
returns the cached array when present; on `AttributeError` the array is
produced according to `btype`: `'Gaussian'` runs `gen_gaussian_blm`, `'PO'`
and `'EG'` run `load_blm(po_file / eg_file, deconv_q=True, normalize=True)`,
anything else raises `ValueError`.  The returned triple also reports how many
generation/loading routine invocations this read performed (0 on a cache hit,
1 otherwise) — the external call counter the spec asks to observe. -/
def Beam.blm_get {α : Type} (t : Tools α) (b : Beam α) :
    Except PyErr (α × Beam α × ℕ) :=
  match b.blm with
  | some v => .ok (v, b, 0)
  | none =>
    if b.btype == "Gaussian" then
      .ok (gaussianBlmVal t b, b.gen_gaussian_blm t, 1)
    else if b.btype == "PO" then
      .ok (loadBlmVal t b b.po_file true true,
           { b with blm := some (loadBlmVal t b b.po_file true true) }, 1)
    else if b.btype == "EG" then
      .ok (loadBlmVal t b b.eg_file true true,
           { b with blm := some (loadBlmVal t b b.eg_file true true) }, 1)
    else
      .error (.valueError ("btype = " ++ b.btype ++ " not recognized"))

/-- The `blm` deleter (detector.py lines 219-221): `del self.__blm`, which
raises `AttributeError` when the cache is absent. -/
def Beam.del_blm_attr {α : Type} (b : Beam α) : Except PyErr (Beam α) :=
  match b.blm with
  | none => .error (.attributeError "Beam object has no attribute _Beam__blm")
  | some _ => .ok { b with blm := none }

/-- Method `Beam.delete_blm` (detector.py lines 380-402).  The own-cache deletion is
wrapped in `try/except AttributeError`, so it silently succeeds either way.
The guard `if any(self.ghosts) and del_ghosts_blm:` then evaluates
`self.ghosts` unconditionally; on a ghost that read raises `AttributeError`
— after the own cache has already been dropped.  Because the mutation
survives the exception in Python, the result is the mutated state paired with
the optionally raised exception.  `any` over a list of `Beam` objects is
truth-testing object references, i.e. it is nonemptiness of the list. -/
def Beam.delete_blm {α : Type} (b : Beam α) (del_ghosts_blm : Bool) :
    Beam α × Option PyErr :=
  let b' : Beam α := { b with blm := none }
  match b'.ghosts with
  | none => (b', some (.attributeError "Beam object has no attribute _Beam__ghosts"))
  | some gs =>
    if !gs.isEmpty && del_ghosts_blm then
      ({ b' with ghosts := some (gs.map fun g => { g with blm := none }) }, none)
    else (b', none)

/-- The keyword arguments (`kwargs`) a caller may pass to `create_ghost`:
every `Beam.__init__` keyword, each `none` when absent from the call.  The
`name` entry is popped and discarded by `create_ghost`; a `ghost` entry is
overwritten by the forced `ghost=True`. -/
structure GhostOverrides where
  az : Option ℚ := none
  el : Option ℚ := none
  polang : Option ℚ := none
  name : Option (Option String) := none
  pol : Option String := none
  btype : Option String := none
  fwhm : Option (Option ℚ) := none
  lmax : Option (Option ℤ) := none
  mmax : Option (Option ℤ) := none
  dead : Option Bool := none
  ghost : Option Bool := none
  amplitude : Option ℚ := none
  po_file : Option (Option String) := none
  eg_file : Option (Option String) := none
  cross_pol_file : Option (Option String) := none
deriving DecidableEq, Repr

/-- Update step `ghost_opts.update(kwargs)` (detector.py line 347) after
`kwargs.pop('name', None)` (line 325): every caller-supplied entry replaces
the corresponding default, except `name`, which was popped and is ignored. -/
def applyOverrides (base : BeamArgs) (kw : GhostOverrides) : BeamArgs :=
  { az := kw.az.getD base.az,
    el := kw.el.getD base.el,
    polang := kw.polang.getD base.polang,
    name := base.name,
    pol := kw.pol.getD base.pol,
    btype := kw.btype.getD base.btype,
    fwhm := kw.fwhm.getD base.fwhm,
    lmax := kw.lmax.getD base.lmax,
    mmax := kw.mmax.getD base.mmax,
    dead := kw.dead.getD base.dead,
    ghost := kw.ghost.getD base.ghost,
    amplitude := kw.amplitude.getD base.amplitude,
    po_file := kw.po_file.getD base.po_file,
    eg_file := kw.eg_file.getD base.eg_file,
    cross_pol_file := kw.cross_pol_file.getD base.cross_pol_file }

/-- Method `Beam.create_ghost(tag='ghost', **kwargs)` (detector.py lines 299-355).
Raises `RuntimeError` on a ghost.  The ghost name is
`parent_name + '_' + tag` when both `tag` and the parent name are truthy,
`tag` alone when `tag` is truthy but the parent name is falsy, and the parent
name unchanged when `tag` is falsy; any `name` override is popped and
ignored.  `ghost_opts` defaults `az, el, polang, name, pol, btype, fwhm,
dead, lmax, mmax` to the parent's current values — but not `amplitude`,
`po_file`, `eg_file`, `cross_pol_file`, which therefore fall back to the
`Beam.__init__` defaults — then applies `kwargs` on top and forces
`ghost=True`.  The new `Beam` is constructed, given
`ghost_idx = parent.ghost_count` through the `ghost_idx` setter, the parent's
`ghost_count` is incremented through its setter, and the ghost is appended to
the parent's ghost list.  The returned value is the updated parent (whose
ghost list now ends with the new ghost). -/
def Beam.create_ghost {α : Type} (self : Beam α) (tag : Option String)
    (kw : GhostOverrides) : Except PyErr (Beam α) :=
  if self.ghost then .error (.runtimeError "Ghost cannot have ghosts")
  else
    let ghostName : Option String :=
      if pyTruthyStr tag then
        if pyTruthyStr self.name then
          some (self.name.getD "" ++ "_" ++ tag.getD "")
        else tag
      else self.name
    let base : BeamArgs :=
      { az := self.az, el := self.el, polang := self.polang,
        name := ghostName, pol := self.pol, btype := self.btype,
        fwhm := some self.fwhm, dead := self.dead,
        lmax := some self.lmax, mmax := some self.mmax }
    let a : BeamArgs := { applyOverrides base kw with ghost := true }
    match Beam.init (α := α) a with
    | .error e => .error e
    | .ok g =>
      match self.ghost_count with
      | none => .error (.attributeError "Beam object has no attribute _Beam__ghost_count")
      | some gc =>
        match g.set_ghost_idx gc with
        | .error e => .error e
        | .ok g =>
          match self.set_ghost_count (gc + 1) with
          | .error e => .error e
          | .ok self' =>
            match self'.ghosts with
            | none => .error (.attributeError "Beam object has no attribute _Beam__ghosts")
            | some gs => .ok { self' with ghosts := some (gs ++ [g.toBeamF]) }

/-- A Python value passed where a `Beam` is expected: either an actual `Beam`
object or something else (whose only relevant feature is that
`isinstance(partner, Beam)` is false). -/
inductive PyObj (α : Type) where
  | beam (b : Beam α)
  | notBeam (desc : String)

/-- Method `Beam.reuse_blm(partner)` (detector.py lines 357-378).  Raises
`TypeError` (before any mutation) unless `partner` is a `Beam`.  When both
are ghosts, `self.ghost_idx = partner.ghost_idx` (reading the partner's
attribute, which ghosts always carry, and writing through the setter).  Then
`self.blm = partner.blm` — the right-hand side is the partner's `blm`
*getter*, so a partner without a cached array computes and caches one first
(mutating the partner) — followed by plain copies of `btype` and
setter-mediated assignments of `lmax` and `mmax` and a plain copy of
`amplitude`, all read from the (possibly updated) partner.  Returns the
updated `(self, partner)` pair. -/
def Beam.reuse_blm {α : Type} (t : Tools α) (self : Beam α)
    (partner : PyObj α) : Except PyErr (Beam α × Beam α) :=
  match partner with
  | .notBeam _ => .error (.typeError "partner must be Beam object")
  | .beam p =>
    let step1 : Except PyErr (Beam α) :=
      if p.ghost && self.ghost then
        match p.ghost_idx with
        | none => .error (.attributeError "Beam object has no attribute _Beam__ghost_idx")
        | some i => self.set_ghost_idx i
      else .ok self
    match step1 with
    | .error e => .error e
    | .ok s1 =>
      match p.blm_get t with
      | .error e => .error e
      | .ok (v, p', _) =>
        let s2 : Beam α := { s1 with blm := some v }
        let s3 : Beam α := { s2 with btype := p'.btype }
        match s3.set_lmax (some p'.lmax) with
        | .error e => .error e
        | .ok s4 =>
          let s5 := s4.set_mmax (some p'.mmax)
          .ok ({ s5 with amplitude := p'.amplitude }, p')

/-- Keyword arguments of `Detector.__init__` with their Python default
values (detector.py lines 439-441); exact rationals stand for the float
literals. -/
structure DetArgs where
  pol : Bool := true
  single_moded : Bool := true
  nu : ℚ := 100
  bw : ℚ := 0.3
  oe : ℚ := 0.4
  fwhm : ℚ := 43
  alt : ℚ := 5.2
  et : Option ℚ := none
  NEP_phonon : ℚ := 6
  NEP_readout : ℚ := 3
  NEP_photon : Option ℚ := none
  P_opt : ℚ := 0
  P_atm : Option ℚ := none
  P_cmb : ℚ := 0.3
  site_dir : String := "old_profiles/"
  site : Option String := none
deriving DecidableEq, Repr

/-- External physics environment of `Detector.__init__`.  The source file
never defines or imports the names `pi`, `c`, `hg`, `site_loading` and
`dqdt`; per the spec they are constants and pure functions supplied by an
external numerics library, so the embedding takes them as parameters.
`site_loading(self, site, site_dir)` also receives the partially built
detector, whose contribution is opaque here, so the embedding keeps only the
`site` and `site_dir` arguments; `sqrt` stands for `np.sqrt`. -/
structure Phys where
  pi : ℚ
  c : ℚ
  hg : ℚ
  sqrt : ℚ → ℚ
  site_loading : String → String → ℚ
  dqdt : ℚ → ℚ → Bool → ℚ

/-- Attributes of a successfully constructed `Detector` (detector.py lines
461-508).  `NEP_bose`/`NEP_shot` exist only when `NEP_photon` was not given. -/
structure Detector where
  pol : Bool
  polfact : ℚ
  nu : ℚ
  bw : ℚ
  oe : ℚ
  fwhm : ℚ
  bsa : ℚ
  effa : ℚ
  et : ℚ
  P_opt : ℚ
  P_cmb : ℚ
  site_dir : String
  site : Option String
  P_atm : ℚ
  P_photon : ℚ
  dqdt : ℚ
  NEP_bose : Option ℚ
  NEP_shot : Option ℚ
  NEP_photon : ℚ
  NEP_phonon : ℚ
  NEP_readout : ℚ
  NEP_detector : ℚ
  NEP_total : ℚ
  NET : ℚ
deriving DecidableEq

/-- Constructor `Detector.__init__` (detector.py lines 439-508).  After the optical
quantities, the constructor raises `ValueError` when both `site` and `P_atm`
are `None`.  The attribute `self.P_atm` is assigned *only* inside
`if site is not None:` (from `site_loading`); the `P_atm` parameter itself is
never stored.  Consequently, when `site is None` and an explicit `P_atm` was
passed, the check is passed but the next line
`self.P_photon = self.oe * (self.P_atm + self.P_cmb + self.P_opt)` reads the
nonexistent attribute and raises `AttributeError`. -/
def Detector.init (φ : Phys) (a : DetArgs) : Except PyErr Detector :=
  let polfact : ℚ := if a.pol then 1 else 2
  let bsa : ℚ := 2 * φ.pi * (φ.pi / 180 / 60 * (a.fwhm / 2.354)) ^ 2
  let effa : ℚ := (φ.c / (a.nu * 1e9)) ^ 2 / bsa * 1e4
  let et : ℚ := if a.single_moded then (φ.c / (1e9 * a.nu)) ^ 2
                else bsa * effa / 1e4
  if a.site = none ∧ a.P_atm = none then
    .error (.valueError "Must define site or atmospheric loading")
  else
    let P_atm_attr : Option ℚ :=
      match a.site with
      | some s => some (φ.site_loading s a.site_dir)
      | none => none
    match P_atm_attr with
    | none => .error (.attributeError "Detector object has no attribute P_atm")
    | some P_atm =>
      let P_photon : ℚ := a.oe * (P_atm + a.P_cmb + a.P_opt)
      let dq : ℚ := a.oe * φ.dqdt a.nu a.bw a.pol
      let boseShotPhoton : Option ℚ × Option ℚ × ℚ :=
        match a.NEP_photon with
        | none =>
          let bose := φ.sqrt (2 * P_photon ^ 2 / (polfact * a.nu * a.bw * 1e9)) * 1e6
          let shot := φ.sqrt (2 * φ.hg * a.nu * P_photon) * 1e6
          (some bose, some shot, φ.sqrt (bose ^ 2 + shot ^ 2))
        | some given => (none, none, given)
      .ok { pol := a.pol, polfact := polfact, nu := a.nu, bw := a.bw,
            oe := a.oe, fwhm := a.fwhm, bsa := bsa, effa := effa, et := et,
            P_opt := a.P_opt, P_cmb := a.P_cmb, site_dir := a.site_dir,
            site := a.site, P_atm := P_atm, P_photon := P_photon, dqdt := dq,
            NEP_bose := boseShotPhoton.1, NEP_shot := boseShotPhoton.2.1,
            NEP_photon := boseShotPhoton.2.2, NEP_phonon := a.NEP_phonon,
            NEP_readout := a.NEP_readout,
            NEP_detector := φ.sqrt (a.NEP_phonon ^ 2 + a.NEP_readout ^ 2),
            NEP_total := φ.sqrt (a.NEP_phonon ^ 2 + a.NEP_readout ^ 2
              + boseShotPhoton.2.2 ^ 2),
            NET := φ.sqrt (a.NEP_phonon ^ 2 + a.NEP_readout ^ 2
              + boseShotPhoton.2.2 ^ 2) / (φ.sqrt 2 * dq) }

/-- Python `int()` applied to a float: truncation toward zero (equal to the
floor for the non-negative values arising here). -/
def pyInt (q : ℚ) : ℤ := if 0 ≤ q then ⌊q⌋ else -⌊-q⌋

/-- Modelled from the spec: the intended `fwhm → lmax` derivation
`int(2 * pi / radians(fwhm / 60) * 1.4)` that the source's dead branch
(detector.py line 147, unreachable because of the free-name bug in the guard)
was meant to compute.  The factors of pi cancel exactly
(see `lmax_from_fwhm_pi_cancel`), leaving `int(2 * 180 * 60 / f * 1.4)`. -/
def specDerivedLmax (f : ℚ) : ℤ := pyInt (2 * 180 * 60 / f * 1.4)

/-- Trivial instantiation of the external numerics interface at `α = Unit`,
used to evaluate the embedded code on concrete inputs. -/
def toolsU : Tools Unit :=
  { gauss_blm := fun _ _ => (), scale := fun _ _ => (),
    get_copol_blm_c2 := fun _ _ => (), get_copol_blm_opts := fun _ _ _ => (),
    np_load := fun _ => () }

/-- Fallback beam used only to make fixture extraction total; test fixtures
below are all obtained from `Beam.init`. -/
def beamDflt : Beam Unit :=
  { az := 0, el := 0, polang := 0, name := none, pol := "A", btype := "Gaussian",
    dead := false, amplitude := 1, po_file := none, eg_file := none,
    cross_pol_file := none, lmax := 700, mmax := 700, fwhm := 30240 / 700,
    ghost := false, ghost_count := some 0, ghost_idx := none, blm := none,
    ghosts := some [] }

/-- Extract the beam from a successful construction (fixtures only). -/
def getOk {α : Type} (e : Except PyErr (Beam α)) (dflt : Beam α) : Beam α :=
  match e with
  | .ok b => b
  | .error _ => dflt

/-- Concrete non-ghost beam: `Beam(name='det', fwhm=43)` with all other
defaults. -/
def parentU : Beam Unit :=
  getOk (Beam.init { name := some "det", fwhm := some 43 }) beamDflt

/-- Concrete ghost beam: `Beam(name='g', ghost=True)`. -/
def ghostU : Beam Unit := getOk (Beam.init { name := some "g", ghost := true }) beamDflt

/-- Concrete non-ghost beam whose `blm` cache is populated. -/
def beamCachedU : Beam Unit := { parentU with blm := some () }

/-- Concrete non-ghost beam constructed with `amplitude=2` (and `fwhm=43`). -/
def pAmpU : Beam Unit :=
  getOk (Beam.init { name := some "b", amplitude := 2, fwhm := some 43 }) beamDflt

/-- Concrete beam constructed with the default `lmax=700` (so `mmax=700`) and
then assigned `beam.lmax = 5` through the setter. -/
def beamLmaxedU : Beam Unit :=
  getOk ((getOk (Beam.init {}) beamDflt).set_lmax (some 5)) beamDflt

/-- The ghost appended by `create_ghost(tag)` with no keyword overrides, as a
function of the parent and the parent's current `ghost_count` (detector.py
lines 324-352): name derived from `tag` and the parent name, the fields
`az, el, polang, pol, btype, fwhm, dead, lmax, mmax` taken from the parent,
`ghost=True`, `ghost_idx = parent.ghost_count`, and — because `ghost_opts`
omits them — `amplitude`, `po_file`, `eg_file` and `cross_pol_file` at their
`Beam.__init__` defaults.  (The `lmax`, `mmax`, `fwhm` entries shown here are
what the child's setters produce for a well-formed parent, i.e. one with
`lmax ≥ 0`, `mmax ≤ lmax`, `fwhm = |fwhm|`, and `fwhm = 0` only when
`lmax = 0`; see `create_ghost_ok`.) -/
def createdGhost {α : Type} (p : Beam α) (tag : Option String) (gc : ℤ) : BeamF α :=
  { az := p.az, el := p.el, polang := p.polang,
    name := if pyTruthyStr tag then
        (if pyTruthyStr p.name then some (p.name.getD "" ++ "_" ++ tag.getD "") else tag)
      else p.name,
    pol := p.pol, btype := p.btype, dead := p.dead, amplitude := 1,
    po_file := none, eg_file := none, cross_pol_file := none,
    lmax := p.lmax, mmax := p.mmax, fwhm := p.fwhm, ghost := true,
    ghost_count := none, ghost_idx := some gc, blm := none }

/-- Parent after one `create_ghost('ghost')` call on `parentU`. -/
def parent1U : Beam Unit := getOk (parentU.create_ghost (some "ghost") {}) beamDflt

/-- Result pair of `parentU.reuse_blm(beamCachedU)`. -/
def reusePairU : Beam Unit × Beam Unit :=
  match Beam.reuse_blm toolsU parentU (.beam beamCachedU) with
  | .ok r => r
  | .error _ => (beamDflt, beamDflt)

/-- Justification for stating the `fwhm` derivation over `ℚ`: in the real
numbers, `np.degrees((1.4 * 2 * pi) / L) * 60` equals `1.4 * 2 * 180 * 60 / L`
— the factors of pi cancel exactly. -/
theorem fwhm_from_lmax_pi_cancel (L : ℝ) :
    (1.4 : ℝ) * 2 * Real.pi / L * (180 / Real.pi) * 60
      = (1.4 : ℝ) * 2 * 180 * 60 / L := by
  rcases eq_or_ne L 0 with h | h
  · subst h; simp
  · have hπ := Real.pi_ne_zero
    field_simp
    ring

/-- Justification for the spec-side `lmax` derivation over `ℚ`: in the real
numbers, `2 * pi / radians(f / 60) * 1.4` with `radians(x) = x * pi / 180`
equals `2 * 180 * 60 / f * 1.4` — the factors of pi cancel exactly. -/
theorem lmax_from_fwhm_pi_cancel (f : ℝ) (hf : f ≠ 0) :
    2 * Real.pi / (f / 60 * Real.pi / 180) * 1.4
      = 2 * 180 * 60 / f * 1.4 := by
  have hπ := Real.pi_ne_zero
  field_simp
  ring

/-- C1: constructing a `Beam` with `fwhm` given and `lmax=None` is claimed to
store `lmax = floor(1.4 * 2 * pi / radians(fwhm / 60))` (= 665 for
`fwhm=43`, per the claim).  In the code the `lmax` setter's guard
`if val is None and fwhm:` evaluates the undefined free name `fwhm`, so
`Beam(fwhm=43, lmax=None)` raises `NameError` and no `lmax` is ever derived;
moreover the claimed formula itself evaluates to 703, not 665, at
`fwhm=43`. -/
theorem C1_lmax_derivation_eval :
    Beam.init (α := Unit) { fwhm := some 43, lmax := none }
      = .error (.nameError "name fwhm is not defined")
    ∧ specDerivedLmax 43 = 703 := by
  constructor
  · rfl
  · norm_num [specDerivedLmax, pyInt]

/-- C4: `Detector` construction is claimed to fail on a missing loading
source if and only if neither `site` nor `P_atm` is supplied, an explicit
`P_atm` with no site being sufficient to proceed past the loading
computation.  In the code the `P_atm` parameter is never stored on the
object, so `Detector(P_atm=3)` (no site) passes the check but raises
`AttributeError` at `self.P_photon = self.oe * (self.P_atm + ...)`; with
both absent the claimed `ValueError` is raised, and with a site given the
construction succeeds. -/
theorem C4_detector_loading_eval (φ : Phys) :
    Detector.init φ { P_atm := some 3 }
      = .error (.attributeError "Detector object has no attribute P_atm")
    ∧ Detector.init φ {} = .error (.valueError "Must define site or atmospheric loading")
    ∧ ∀ s : String, ∃ d : Detector, Detector.init φ { site := some s } = .ok d := by
  refine ⟨rfl, rfl, fun s => ⟨_, rfl⟩⟩

/-- C9: the role restrictions on ghost attributes.  Setting `ghost_idx` on a
non-ghost raises `ValueError` and `create_ghost` on a ghost raises
`RuntimeError`, as claimed; the opposite-role assignments succeed.  But
setting `ghost_count` on a ghost hits the misspelled `raise ValueErrror(...)`
in the source and therefore raises `NameError`, not the intended
capability-violation `ValueError`. -/
theorem C9_role_restrictions_eval :
    ghostU.set_ghost_count 1 = .error (.nameError "name ValueErrror is not defined")
    ∧ parentU.set_ghost_idx 0 = .error (.valueError "main beam cannot have ghost_idx")
    ∧ ghostU.create_ghost (some "ghost") {} = .error (.runtimeError "Ghost cannot have ghosts")
    ∧ parentU.set_ghost_count 5 = .ok { parentU with ghost_count := some 5 }
    ∧ ghostU.set_ghost_idx 7 = .ok { ghostU with ghost_idx := some 7 } := by
  refine ⟨rfl, rfl, rfl, rfl, rfl⟩

/-- C10: on every ghost beam, `delete_blm` — with any `del_ghosts_blm` value
and whether or not a `blm` is cached — first drops the ghost's own cache and
then raises `AttributeError` because `any(self.ghosts)` reads the ghost-list
attribute that only non-ghost beams possess; on non-ghost beams the call
raises nothing. -/
theorem C10_delete_blm_ghost_attribute_error {α : Type} (g : Beam α) (flag : Bool)
    (h : g.ghosts = none) :
    (g.delete_blm flag).2
        = some (.attributeError "Beam object has no attribute _Beam__ghosts")
    ∧ (g.delete_blm flag).1 = { g with blm := none }
    ∧ ∀ (b : Beam α) (gs : List (BeamF α)), b.ghosts = some gs →
        (b.delete_blm flag).2 = none := by
  refine ⟨?_, ?_, ?_⟩
  · simp [Beam.delete_blm, h]
  · simp [Beam.delete_blm, h]
  · intro b gs hb
    simp only [Beam.delete_blm, hb]
    split <;> rfl

/-- Witness for C10: the concrete ghost `Beam(name='g', ghost=True)`. -/
theorem C10_delete_blm_ghost_attribute_error_witness :
    (ghostU.delete_blm true).2
        = some (.attributeError "Beam object has no attribute _Beam__ghosts")
    ∧ (ghostU.delete_blm true).1 = { ghostU with blm := none } :=
  ⟨(C10_delete_blm_ghost_attribute_error ghostU true rfl).1,
   (C10_delete_blm_ghost_attribute_error ghostU true rfl).2.1⟩

/-- Modifying one index of a list leaves every index other than the modified one unchanged. -/
theorem listModify_get_ne {β : Type} (l : List β) (i j : ℕ) (f : β → β)
    (h : j ≠ i) : (listModify l i f).get? j = l.get? j := by
  induction l generalizing i j with
  | nil => rfl
  | cons a l ih =>
    cases i with
    | zero =>
      cases j with
      | zero => exact absurd rfl h
      | succ j => rfl
    | succ i =>
      cases j with
      | zero => rfl
      | succ j => simpa [listModify] using ih i j (by omega)

/-- Modifying one index of a list applies `f` at that index. -/
theorem listModify_get_eq {β : Type} (l : List β) (i : ℕ) (f : β → β) (g : β)
    (h : l.get? i = some g) : (listModify l i f).get? i = some (f g) := by
  induction l generalizing i with
  | nil => simp at h
  | cons a l ih =>
    cases i with
    | zero => simp_all [listModify]
    | succ i => simpa [listModify] using ih i (by simpa using h)

/-- C5: setting a non-ghost beam's `dead` flag to `v` propagates `v` to every
ghost in its ghost list; on a ghost the propagation step is skipped without
error and only the own flag changes; and setting a single ghost's `dead` flag
through the parent's list leaves the parent's flag and every sibling
untouched. -/
theorem C5_dead_propagation {α : Type} (b : Beam α) (v : Bool) :
    ((b.set_dead v).dead = v)
    ∧ (∀ gs : List (BeamF α), b.ghosts = some gs →
        (b.set_dead v).ghosts = some (gs.map fun g => { g with dead := v })
        ∧ ∀ g ∈ (gs.map fun g : BeamF α => { g with dead := v }), g.dead = v)
    ∧ (b.ghosts = none → b.set_dead v = { b with dead := v })
    ∧ (∀ (gs : List (BeamF α)) (i : ℕ) (w : Bool), b.ghosts = some gs →
        (b.set_ghost_dead i w).dead = b.dead
        ∧ (b.set_ghost_dead i w).ghosts
            = some (listModify gs i fun g => { g with dead := w })
        ∧ (∀ j, j ≠ i →
            (listModify gs i fun g : BeamF α => { g with dead := w }).get? j
              = gs.get? j)
        ∧ ∀ g, gs.get? i = some g →
            (listModify gs i fun g : BeamF α => { g with dead := w }).get? i
              = some { g with dead := w }) := by
  obtain ⟨bf, bg⟩ := b
  refine ⟨?_, ?_, ?_, ?_⟩
  · cases bg <;> rfl
  · intro gs hgs
    cases bg with
    | none => simp at hgs
    | some gs0 =>
      cases hgs
      refine ⟨rfl, ?_⟩
      intro g hg
      simp only [List.mem_map] at hg
      obtain ⟨a, _, rfl⟩ := hg
      rfl
  · intro hgs
    cases bg with
    | none => rfl
    | some gs0 => simp at hgs
  · intro gs i w hgs
    cases bg with
    | none => simp at hgs
    | some gs0 =>
      cases hgs
      exact ⟨rfl, rfl, fun j hj => listModify_get_ne gs i j _ hj,
             fun g hg => listModify_get_eq gs i _ g hg⟩

/-- Witness for C5: the concrete non-ghost beam `Beam(name='det')` with its
(empty) ghost list, and the concrete ghost `Beam(name='g', ghost=True)`. -/
theorem C5_dead_propagation_witness :
    ((parentU.set_dead true).dead = true)
    ∧ (parentU.set_dead true).ghosts = some []
    ∧ ghostU.set_dead true = { ghostU with dead := true } :=
  ⟨(C5_dead_propagation parentU true).1,
   ((C5_dead_propagation parentU true).2.1 [] rfl).1,
   (C5_dead_propagation ghostU true).2.2.1 rfl⟩

/-- C2: the `blm` cache.  A read on a beam with a cached array returns
exactly the cached array, performs no generation/loading call and leaves the
beam unchanged; changing `btype` while an array is cached does not regenerate
it (the stale cached array is still returned); `delete_blm` drops the cache
(leaving `btype` alone); and a read on a beam without a cache and with
`btype='Gaussian'` performs exactly one generation call. -/
theorem C2_blm_cache {α : Type} (t : Tools α) (b : Beam α) (v : α)
    (h : b.blm = some v) :
    b.blm_get t = .ok (v, b, 0)
    ∧ (∀ bt : String,
        Beam.blm_get t { b with btype := bt } = .ok (v, { b with btype := bt }, 0))
    ∧ (∀ flag : Bool,
        (b.delete_blm flag).1.blm = none ∧ (b.delete_blm flag).1.btype = b.btype)
    ∧ (∀ b' : Beam α, b'.blm = none → b'.btype = "Gaussian" →
        b'.blm_get t = .ok (gaussianBlmVal t b', b'.gen_gaussian_blm t, 1)) := by
  obtain ⟨bf, bg⟩ := b
  refine ⟨?_, ?_, ?_, ?_⟩
  · simp only [Beam.blm_get]
    rw [show (Beam.mk bf bg).blm = bf.blm from rfl] at h ⊢
    rw [h]
  · intro bt
    simp only [Beam.blm_get]
    rw [show (Beam.mk bf bg).blm = bf.blm from rfl] at h
    obtain ⟨⟩ := bf
    simp_all
  · intro flag
    obtain ⟨⟩ := bf
    simp only [Beam.delete_blm]
    cases bg with
    | none => exact ⟨rfl, rfl⟩
    | some gs =>
      constructor
      · split
        · rfl
        · split <;> rfl
      · split
        · rfl
        · split <;> rfl
  · intro b' h1 h2
    obtain ⟨bf', bg'⟩ := b'
    rw [show (Beam.mk bf' bg').blm = bf'.blm from rfl] at h1
    rw [show (Beam.mk bf' bg').btype = bf'.btype from rfl] at h2
    simp only [Beam.blm_get, h1, h2]
    rfl

/-- Witness for C2: the concrete beam `Beam(name='det')` with a populated
cache, and the same beam with its (empty) cache for the recomputation part. -/
theorem C2_blm_cache_witness :
    beamCachedU.blm = some ()
    ∧ beamCachedU.blm_get toolsU = .ok ((), beamCachedU, 0)
    ∧ Beam.blm_get toolsU { beamCachedU with btype := "PO" }
        = .ok ((), { beamCachedU with btype := "PO" }, 0)
    ∧ parentU.blm_get toolsU
        = .ok (gaussianBlmVal toolsU parentU, parentU.gen_gaussian_blm toolsU, 1) :=
  ⟨rfl, (C2_blm_cache toolsU beamCachedU () rfl).1,
   (C2_blm_cache toolsU beamCachedU () rfl).2.1 "PO",
   (C2_blm_cache toolsU beamCachedU () rfl).2.2.2 parentU rfl rfl⟩

/-- The `lmax` setter stores a non-negative given value unchanged. -/
theorem lmaxSetVal_self {l : ℤ} (hl : 0 ≤ l) : lmaxSetVal (some l) = .ok l := by
  simp [lmaxSetVal, max_eq_left hl]

/-- The `fwhm` setter stores a well-formed given value unchanged: a
non-negative value that is zero only when `lmax` is zero. -/
theorem fwhmSetVal_self {f : ℚ} {l : ℤ} (hf : 0 ≤ f) (hf0 : f = 0 → l = 0) :
    fwhmSetVal (some f) l = .ok f := by
  by_cases h0 : f = 0
  · subst h0
    rw [hf0 rfl]
    simp [fwhmSetVal, pyFalsyQ]
  · have hb : (f == 0) = false := by simp [h0]
    simp [fwhmSetVal, pyFalsyQ, hb, abs_of_nonneg hf]

/-- The `mmax` setter stores a given value unchanged when it does not exceed
the stored `lmax`. -/
theorem mmaxSetVal_self {m l : ℤ} (hm : m ≤ l) : mmaxSetVal (some m) l = m := by
  simp [mmaxSetVal, min_eq_left hm]

/-- Calling `create_ghost(tag)` with no keyword overrides, on a well-formed non-ghost
parent: the parent's `ghost_count` becomes `gc + 1` and `createdGhost p tag gc`
is appended to its ghost list. -/
theorem create_ghost_ok {α : Type} (p : Beam α) (gs : List (BeamF α)) (gc : ℤ)
    (tag : Option String) (hg : p.ghost = false) (hc : p.ghost_count = some gc)
    (hgs : p.ghosts = some gs) (hl : 0 ≤ p.lmax) (hm : p.mmax ≤ p.lmax)
    (hf : 0 ≤ p.fwhm) (hf0 : p.fwhm = 0 → p.lmax = 0) :
    p.create_ghost tag {}
      = .ok { p with ghost_count := some (gc + 1),
                     ghosts := some (gs ++ [createdGhost p tag gc]) } := by
  have hlm : lmaxSetVal (some p.lmax) = .ok p.lmax := lmaxSetVal_self hl
  have hfw : fwhmSetVal (some p.fwhm) p.lmax = .ok p.fwhm := fwhmSetVal_self hf hf0
  have hmm : mmaxSetVal (some p.mmax) p.lmax = p.mmax := mmaxSetVal_self hm
  simp only [Beam.create_ghost, hg, Bool.false_eq_true, if_false, Beam.init,
    applyOverrides, Option.getD_none, hlm, hfw, hmm, Beam.set_ghost_idx,
    Beam.set_ghost_count, Beam.set_ghost_count, hc, hgs, createdGhost,
    Bool.not_false, if_true]

/-- The `mmax` setter never stores a value above the stored `lmax`. -/
theorem mmaxSetVal_le (v : Option ℤ) (l : ℤ) : mmaxSetVal v l ≤ l := by
  cases v <;> simp [mmaxSetVal]

/-- A successful `blm` read caches the returned array and leaves every
attribute other than `btype` and `blm` unchanged. -/
theorem blm_get_ok_fields {α : Type} (t : Tools α) (p p' : Beam α) (v : α) (n : ℕ)
    (h : p.blm_get t = .ok (v, p', n)) :
    p'.blm = some v ∧ p'.lmax = p.lmax ∧ p'.mmax = p.mmax
    ∧ p'.amplitude = p.amplitude ∧ p'.ghost = p.ghost
    ∧ p'.ghost_idx = p.ghost_idx := by
  obtain ⟨⟨az, el, polang, nm, pol, btype, dead, amp, po, eg, cross,
    lm, mm, fw, gh, gcnt, gidx, blm⟩, bg⟩ := p
  simp only [Beam.blm_get] at h
  cases blm with
  | some w =>
    injection h with h'
    injection h' with h1 h'
    injection h' with h2 h3
    subst h1
    subst h2
    exact ⟨rfl, rfl, rfl, rfl, rfl, rfl⟩
  | none =>
    cases hG : btype == "Gaussian" with
    | true =>
      simp only [hG, if_true] at h
      injection h with h'
      injection h' with h1 h'
      injection h' with h2 h3
      subst h1
      subst h2
      exact ⟨rfl, rfl, rfl, rfl, rfl, rfl⟩
    | false =>
      simp only [hG, if_false, Bool.false_eq_true] at h
      cases hP : btype == "PO" with
      | true =>
        simp only [hP, if_true] at h
        injection h with h'
        injection h' with h1 h'
        injection h' with h2 h3
        subst h1
        subst h2
        exact ⟨rfl, rfl, rfl, rfl, rfl, rfl⟩
      | false =>
        simp only [hP, if_false, Bool.false_eq_true] at h
        cases hE : btype == "EG" with
        | true =>
          simp only [hE, if_true] at h
          injection h with h'
          injection h' with h1 h'
          injection h' with h2 h3
          subst h1
          subst h2
          exact ⟨rfl, rfl, rfl, rfl, rfl, rfl⟩
        | false =>
          simp only [hE, if_false, Bool.false_eq_true] at h
          exact Except.noConfusion h

/-- Field-level description of a successful `reuse_blm` call: the array is
aliased from the (possibly freshly generated) partner cache, `btype` and
`amplitude` are copied, while `lmax` and `mmax` pass through their setters
(`max(val, 0)` and `min(val, lmax)` respectively); the partner's own scalar
attributes are not changed by the read. -/
theorem reuse_blm_ok_spec {α : Type} (t : Tools α) (self p s' p' : Beam α)
    (h : Beam.reuse_blm t self (.beam p) = .ok (s', p')) :
    s'.blm = p'.blm ∧ p'.blm ≠ none
    ∧ s'.btype = p'.btype ∧ s'.amplitude = p'.amplitude
    ∧ s'.lmax = max p'.lmax 0 ∧ s'.mmax = min p'.mmax (max p'.lmax 0)
    ∧ p'.lmax = p.lmax ∧ p'.mmax = p.mmax
    ∧ (p.ghost = true → self.ghost = true → s'.ghost_idx = p.ghost_idx) := by
  simp only [Beam.reuse_blm, Beam.set_lmax, lmaxSetVal, Beam.set_mmax,
    mmaxSetVal] at h
  cases hgg : p.ghost && self.ghost with
  | false =>
    simp only [hgg, Bool.false_eq_true, if_false] at h
    cases hbg : p.blm_get t with
    | error e => rw [hbg] at h; exact Except.noConfusion h
    | ok r =>
      obtain ⟨v, pp, n⟩ := r
      rw [hbg] at h
      injection h with h'
      injection h' with h1 h2
      subst h1
      subst h2
      obtain ⟨hb1, hb2, hb3, hb4, hb5, hb6⟩ := blm_get_ok_fields t p pp v n hbg
      refine ⟨by rw [hb1], by rw [hb1]; exact Option.some_ne_none v,
        rfl, rfl, rfl, rfl, hb2, hb3, ?_⟩
      intro hpg hsg
      rw [hpg, hsg] at hgg
      simp at hgg
  | true =>
    simp only [hgg, if_true] at h
    cases hgi : p.ghost_idx with
    | none => rw [hgi] at h; exact Except.noConfusion h
    | some i =>
      rw [hgi] at h
      have hsg : self.ghost = true := (Bool.and_eq_true _ _ |>.mp hgg).2
      simp only [Beam.set_ghost_idx, hsg, if_true] at h
      cases hbg : p.blm_get t with
      | error e => rw [hbg] at h; exact Except.noConfusion h
      | ok r =>
        obtain ⟨v, pp, n⟩ := r
        rw [hbg] at h
        injection h with h'
        injection h' with h1 h2
        subst h1
        subst h2
        obtain ⟨hb1, hb2, hb3, hb4, hb5, hb6⟩ := blm_get_ok_fields t p pp v n hbg
        exact ⟨by rw [hb1], by rw [hb1]; exact Option.some_ne_none v,
          rfl, rfl, rfl, rfl, hb2, hb3, fun _ _ => rfl⟩

/-- C3 (counterexample): the claim that every other constructor field of a
new ghost defaults to the parent's current value is false for `amplitude`:
a parent constructed with `amplitude=2` gets a ghost with `amplitude == 1`
(the `Beam.__init__` default), because `create_ghost` omits `amplitude` from
`ghost_opts`. -/
theorem C3_create_ghost_cex :
    pAmpU.amplitude = 2
    ∧ (pAmpU.create_ghost (some "ghost") {}).map
        (fun s' => (s'.ghosts.getD []).map BeamF.amplitude) = .ok [1] :=
  ⟨rfl, rfl⟩

/-- C3 (amended): `create_ghost(tag, **overrides)` on a well-formed non-ghost
parent ignores any `name` override; the ghost's name is
`<parent_name>_<tag>` when both `tag` and the parent name are truthy, `tag`
alone when the parent name is falsy, and the parent's name unchanged when
`tag` is falsy; the fields `az, el, polang, pol, btype, fwhm, dead, lmax,
mmax` default to the parent's current values with `ghost=True` forced and
`ghost_idx = parent.ghost_count`, while `amplitude`, `po_file`, `eg_file`
and `cross_pol_file` fall back to the `Beam.__init__` defaults rather than
to the parent's values. -/
theorem C3_create_ghost_amended {α : Type} (p : Beam α) (gs : List (BeamF α))
    (gc : ℤ) (tag : Option String) (hg : p.ghost = false)
    (hc : p.ghost_count = some gc) (hgs : p.ghosts = some gs)
    (hl : 0 ≤ p.lmax) (hm : p.mmax ≤ p.lmax) (hf : 0 ≤ p.fwhm)
    (hf0 : p.fwhm = 0 → p.lmax = 0) :
    (∀ (kw : GhostOverrides) (n : Option (Option String)),
        p.create_ghost tag { kw with name := n }
          = p.create_ghost tag { kw with name := none })
    ∧ p.create_ghost tag {}
        = .ok { p with ghost_count := some (gc + 1),
                       ghosts := some (gs ++ [createdGhost p tag gc]) }
    ∧ (createdGhost p tag gc).name
        = (if pyTruthyStr tag then
            (if pyTruthyStr p.name then some (p.name.getD "" ++ "_" ++ tag.getD "")
             else tag)
           else p.name)
    ∧ (createdGhost p tag gc).az = p.az ∧ (createdGhost p tag gc).el = p.el
    ∧ (createdGhost p tag gc).polang = p.polang
    ∧ (createdGhost p tag gc).pol = p.pol
    ∧ (createdGhost p tag gc).btype = p.btype
    ∧ (createdGhost p tag gc).fwhm = p.fwhm
    ∧ (createdGhost p tag gc).dead = p.dead
    ∧ (createdGhost p tag gc).lmax = p.lmax
    ∧ (createdGhost p tag gc).mmax = p.mmax
    ∧ (createdGhost p tag gc).ghost = true
    ∧ (createdGhost p tag gc).ghost_idx = some gc
    ∧ (createdGhost p tag gc).amplitude = 1
    ∧ (createdGhost p tag gc).po_file = none
    ∧ (createdGhost p tag gc).eg_file = none
    ∧ (createdGhost p tag gc).cross_pol_file = none :=
  ⟨fun _ _ => rfl, create_ghost_ok p gs gc tag hg hc hgs hl hm hf hf0,
   rfl, rfl, rfl, rfl, rfl, rfl, rfl, rfl, rfl, rfl, rfl, rfl, rfl, rfl, rfl, rfl⟩

/-- Witness for C3 (amended): the concrete parent `Beam(name='b', amplitude=2)`
with a `name` override and with no overrides. -/
theorem C3_create_ghost_amended_witness :
    pAmpU.create_ghost (some "t") { name := some (some "X") }
        = pAmpU.create_ghost (some "t") { name := none }
    ∧ pAmpU.create_ghost (some "ghost") {}
        = .ok { pAmpU with ghost_count := some (0 + 1),
                           ghosts := some ([] ++ [createdGhost pAmpU (some "ghost") 0]) } :=
  ⟨(C3_create_ghost_amended pAmpU [] 0 (some "t") rfl rfl rfl (by decide)
      (by decide) (by decide) (by decide)).1 {} (some (some "X")),
   (C3_create_ghost_amended pAmpU [] 0 (some "ghost") rfl rfl rfl (by decide)
      (by decide) (by decide) (by decide)).2.1⟩

/-- C7: on a well-formed non-ghost parent whose `ghost_count` equals the
length of its ghost list (as `create_ghost` maintains), `create_ghost`
appends a ghost carrying `ghost_idx = ghost_count` — so the k-th created
ghost receives index k-1 — and increments the parent's `ghost_count`. -/
theorem C7_ghost_idx_sequence {α : Type} (p : Beam α) (gs : List (BeamF α))
    (tag : Option String) (hg : p.ghost = false)
    (hc : p.ghost_count = some (gs.length : ℤ)) (hgs : p.ghosts = some gs)
    (hl : 0 ≤ p.lmax) (hm : p.mmax ≤ p.lmax) (hf : 0 ≤ p.fwhm)
    (hf0 : p.fwhm = 0 → p.lmax = 0) :
    p.create_ghost tag {}
      = .ok { p with ghost_count := some ((gs.length : ℤ) + 1),
                     ghosts := some (gs ++ [createdGhost p tag (gs.length : ℤ)]) }
    ∧ (createdGhost p tag (gs.length : ℤ)).ghost_idx = some (gs.length : ℤ) :=
  ⟨create_ghost_ok p gs _ tag hg hc hgs hl hm hf hf0, rfl⟩

/-- Witness for C7: two `create_ghost` calls in sequence on the concrete
parent `Beam(name='det')` produce ghosts with `ghost_idx` 0 and 1 and leave
`ghost_count` at 1 and then 2. -/
theorem C7_ghost_idx_sequence_witness :
    parentU.create_ghost (some "ghost") {}
      = .ok { parentU with ghost_count := some 1,
                           ghosts := some [createdGhost parentU (some "ghost") 0] }
    ∧ parent1U.create_ghost (some "ghost") {}
      = .ok { parent1U with ghost_count := some 2,
                            ghosts := some [createdGhost parentU (some "ghost") 0,
                                            createdGhost parent1U (some "ghost") 1] }
    ∧ (createdGhost parentU (some "ghost") (0 : ℤ)).ghost_idx = some 0
    ∧ (createdGhost parent1U (some "ghost") (1 : ℤ)).ghost_idx = some 1 := by
  have h1 := C7_ghost_idx_sequence (α := Unit) parentU [] (some "ghost")
    rfl rfl rfl (by decide) (by decide) (by decide) (by decide)
  have h2 := C7_ghost_idx_sequence (α := Unit) parent1U
    [createdGhost parentU (some "ghost") 0] (some "ghost")
    rfl rfl rfl (by decide) (by decide) (by decide) (by decide)
  exact ⟨by simpa using h1.1, by simpa using h2.1, h1.2, h2.2⟩

/-- C6 (counterexample): the claim that `reuse_blm` copies the partner's
`mmax` onto `self` is false when the partner's `mmax` exceeds its `lmax`
(reachable by lowering `lmax` after construction): `self.mmax` goes through
the clamping `mmax` setter after `self.lmax` has been set, so it becomes
`min(partner.mmax, partner.lmax) = 5`, not the partner's `mmax = 700`. -/
theorem C6_reuse_blm_mmax_cex :
    beamLmaxedU.mmax = 700 ∧ beamLmaxedU.lmax = 5
    ∧ (Beam.reuse_blm toolsU parentU (.beam beamLmaxedU)).map
        (fun r => (r.1.mmax, r.2.mmax)) = .ok (5, 700) :=
  ⟨rfl, rfl, rfl⟩

/-- C6 (amended): `reuse_blm(partner)` with a non-`Beam` partner fails with a
type error before any mutation; with a `Beam` partner it makes `self.blm`
reference-equal to `partner.blm` (no copy), copies `btype` and `amplitude`,
copies `lmax` (through the `max(val, 0)` setter, the identity for the
non-negative stored values), sets `mmax` to `min(partner.mmax, self.lmax)` —
equal to the partner's `mmax` only when `partner.mmax ≤ partner.lmax` — and,
when both are ghosts, overwrites `self.ghost_idx` with `partner.ghost_idx`. -/
theorem C6_reuse_blm_amended {α : Type} (t : Tools α) (self p : Beam α) :
    (∀ d : String, Beam.reuse_blm t self (.notBeam d)
        = .error (.typeError "partner must be Beam object"))
    ∧ ∀ s' p' : Beam α, Beam.reuse_blm t self (.beam p) = .ok (s', p') →
        s'.blm = p'.blm ∧ p'.blm ≠ none
        ∧ s'.btype = p'.btype ∧ s'.amplitude = p'.amplitude
        ∧ (0 ≤ p.lmax → s'.lmax = p.lmax)
        ∧ s'.mmax = min p.mmax (max p.lmax 0)
        ∧ (0 ≤ p.lmax → p.mmax ≤ p.lmax → s'.mmax = p.mmax)
        ∧ (p.ghost = true → self.ghost = true → s'.ghost_idx = p.ghost_idx) := by
  refine ⟨fun d => rfl, ?_⟩
  intro s' p' h
  obtain ⟨h1, h2, h3, h4, h5, h6, h7, h8, h9⟩ := reuse_blm_ok_spec t self p s' p' h
  refine ⟨h1, h2, h3, h4, ?_, ?_, ?_, h9⟩
  · intro hl
    rw [h5, h7, max_eq_left hl]
  · rw [h6, h7, h8]
  · intro hl hm
    rw [h6, h7, h8, max_eq_left hl, min_eq_left hm]

/-- Witness for C6 (amended): a non-`Beam` partner, and the concrete pair
`parentU.reuse_blm(beamCachedU)` with its cached array. -/
theorem C6_reuse_blm_amended_witness :
    Beam.reuse_blm toolsU parentU (.notBeam "int") = .error (.typeError "partner must be Beam object")
    ∧ reusePairU.1.blm = reusePairU.2.blm
    ∧ reusePairU.1.btype = reusePairU.2.btype :=
  ⟨(C6_reuse_blm_amended toolsU parentU beamCachedU).1 "int",
   ((C6_reuse_blm_amended toolsU parentU beamCachedU).2
      reusePairU.1 reusePairU.2 rfl).1,
   ((C6_reuse_blm_amended toolsU parentU beamCachedU).2
      reusePairU.1 reusePairU.2 rfl).2.2.1⟩

/-- C8 (counterexample): the claim that `mmax ≤ lmax` holds at all times
under any sequence of operations including `lmax` assignment is false: a
beam constructed with `lmax=700` (so `mmax=700`) and then assigned
`beam.lmax = 5` keeps `mmax = 700 > lmax = 5`, because the `lmax` setter
does not re-clamp `mmax`. -/
theorem C8_mmax_invariant_cex :
    beamLmaxedU.lmax = 5 ∧ beamLmaxedU.mmax = 700
    ∧ ¬ beamLmaxedU.mmax ≤ beamLmaxedU.lmax := by
  refine ⟨rfl, rfl, ?_⟩
  intro hc
  rw [show beamLmaxedU.mmax = 700 from rfl, show beamLmaxedU.lmax = 5 from rfl] at hc
  omega

/-- C8 (amended): `mmax ≤ lmax` is established by construction (with
`mmax = lmax` when `mmax` is unset) and preserved by every `mmax` assignment
and by `reuse_blm` (both of which run the clamping `mmax` setter after
`lmax` is in place); a bare `lmax` assignment, however, does not re-clamp
`mmax` and can break the invariant. -/
theorem C8_mmax_invariant_amended {α : Type} (t : Tools α) :
    (∀ (a : BeamArgs) (b : Beam α), Beam.init a = .ok b →
        b.mmax ≤ b.lmax ∧ (a.mmax = none → b.mmax = b.lmax))
    ∧ (∀ (b : Beam α) (v : Option ℤ),
        (b.set_mmax v).mmax ≤ (b.set_mmax v).lmax
        ∧ (v = none → (b.set_mmax v).mmax = (b.set_mmax v).lmax))
    ∧ (∀ self p s' p' : Beam α,
        Beam.reuse_blm t self (.beam p) = .ok (s', p') → s'.mmax ≤ s'.lmax) := by
  refine ⟨?_, ?_, ?_⟩
  · intro a b h
    simp only [Beam.init] at h
    cases hlm : lmaxSetVal a.lmax with
    | error e => rw [hlm] at h; exact Except.noConfusion h
    | ok l =>
      simp only [hlm] at h
      cases hfw : fwhmSetVal a.fwhm l with
      | error e => simp only [hfw] at h; exact Except.noConfusion h
      | ok f =>
        simp only [hfw] at h
        injection h with h'
        subst h'
        constructor
        · exact mmaxSetVal_le a.mmax l
        · intro hn
          show mmaxSetVal a.mmax l = l
          rw [hn]
          rfl
  · intro b v
    constructor
    · exact mmaxSetVal_le v b.lmax
    · intro hn
      subst hn
      rfl
  · intro self p s' p' h
    obtain ⟨h1, h2, h3, h4, h5, h6, h7, h8, h9⟩ := reuse_blm_ok_spec t self p s' p' h
    rw [h5, h6]
    exact min_le_right _ _

/-- Witness for C8 (amended): the concrete construction
`Beam(name='det', fwhm=43)` (whose `mmax` defaults to `lmax`) and a bare
`mmax` assignment on it. -/
theorem C8_mmax_invariant_amended_witness :
    parentU.mmax ≤ parentU.lmax
    ∧ (parentU.set_mmax none).mmax = (parentU.set_mmax none).lmax :=
  ⟨((C8_mmax_invariant_amended (α := Unit) toolsU).1
      { name := some "det", fwhm := some 43 } parentU rfl).1,
   ((C8_mmax_invariant_amended (α := Unit) toolsU).2.1 parentU none).2 rfl⟩
